import Mathlib

/-!
Verification of the asynchronous request engine of the telegram-bot crate
(`src/tokio/src/api.rs`).  The external collaborators — hyper's URI parser and
HTTP client (the Connector), serde_json's encoder/decoder, and tokio's timer —
are shallowly embedded as function parameters; the logic of `Api::send`,
`Api::send_timeout`, `Api::spawn`, `Api::from_token` and the free function
`url` is translated from the source.  Futures are modelled as a completion
time together with a resolved outcome, which is enough to express the
`select`-based race in `send_timeout` and the sequencing in the other
combinators (futures 0.1: `select` polls its receiver first, so ties go to the
first future).
-/

namespace TelegramBot

/-- Base endpoint, `TELEGRAM_URL` in `src/tokio/src/api.rs`. -/
def TELEGRAM_URL : String := "https://api.telegram.org/"

/-- Modelled from the spec: the error taxonomy of section 7 (the `errors`
module of the crate is not under `src/`).  `NetworkError` is a transport or
connection failure (the `From<hyper::Error>` foreign link), `DecodeError` a
body that is not valid JSON or does not match the envelope (the
`From<serde_json::Error>` foreign link), `TelegramError` a remote-reported
failure carrying the description and optional parameters verbatim, and
`IoError` the foreign link for an `io::Error`, e.g. a timer that failed to
start.  `P` is the (externally defined) type of response parameters. -/
inductive ErrorKind (P : Type) where
  | NetworkError : ErrorKind P
  | DecodeError : ErrorKind P
  | TimeoutError : ErrorKind P
  | IoError : ErrorKind P
  | TelegramError (description : String) (parameters : Option P) : ErrorKind P
deriving DecidableEq, Repr

/-- Modelled from the spec: the response envelope of sections 3 and 6, a
tagged union decoded from one JSON object with the boolean discriminant
`ok` — `{"ok":true,"result":R}` is `Success` and
`{"ok":false,"description":D,"parameters":P}` is `Error` (the
`telegram_bot_raw::Response` type is not under `src/`). -/
inductive Response (R P : Type) where
  | Success (result : R) : Response R P
  | Error (description : String) (parameters : Option P) : Response R P
deriving DecidableEq, Repr

/-- HTTP method of an outgoing request (`hyper::Method`). -/
inductive Method where
  | Post : Method
  | Get : Method
deriving DecidableEq, Repr

/-- A response body chunk: a sequence of bytes. -/
abbrev Chunk := List Nat

/-- The HTTP request handed to the connector, as assembled by `Api::send`:
method, target URI (represented by the string hyper parsed), whether the
JSON content-type header is set, and the body bytes. -/
structure HttpRequest where
  method : Method
  uri : String
  contentTypeJson : Bool
  body : List Nat
deriving DecidableEq, Repr

/-- The external collaborators of the request engine, bundled: hyper's
`Uri::from_str` (embedded as a validity test on the string — on success the
parsed `Uri` denotes exactly that string), the connector (hyper client plus
the response body stream: either a connection-level failure or a sequence of
chunk reads, each of which may itself fail mid-stream), and serde_json's
`from_slice` for the response envelope. -/
structure Connector (P R : Type) where
  uriValid : String → Bool
  request : HttpRequest → Except Unit (List (Except Unit Chunk))
  decode : List Nat → Except Unit (Response R P)

/-- A typed request, as the engine sees it (`telegram_bot_raw::Request`):
a method name and the result of `serde_json::to_vec` on its body. -/
structure Request where
  name : String
  encoded : Except Unit (List Nat)

/-- The client handle: the token and the connector capability (in the source,
`ApiInner` holds the token, the built hyper client and the reactor handle). -/
structure Api (P R : Type) where
  token : String
  connector : Connector P R

/-- `fn url(token, method)` from `src/tokio/src/api.rs`: format
`"{}bot{}/{}"` with the base endpoint, token and method name, then parse the
string with `Uri::from_str`; a parse failure is converted by `From` (a
hyper-level failure, `NetworkError` in the spec taxonomy). -/
def url {P : Type} (uriValid : String → Bool) (token method : String) :
    Except (ErrorKind P) String :=
  if uriValid (TELEGRAM_URL ++ "bot" ++ token ++ "/" ++ method) then
    Except.ok (TELEGRAM_URL ++ "bot" ++ token ++ "/" ++ method)
  else
    Except.error ErrorKind.NetworkError

/-- The request-assembly stage of `Api::send` (lines 94–106): compute the
URL future and the lazily encoded body, `join` them (the URL future is
polled first), and on success build the POST with the JSON content-type
header and the encoded body.  A serialization failure is converted by
`From<serde_json::Error>`, i.e. `DecodeError`. -/
def buildRequest {P : Type} (uriValid : String → Bool) (token : String)
    (req : Request) : Except (ErrorKind P) HttpRequest :=
  match url (P := P) uriValid token req.name, req.encoded with
  | Except.error e, _ => Except.error e
  | Except.ok _, Except.error _ => Except.error ErrorKind.DecodeError
  | Except.ok u, Except.ok b =>
      Except.ok { method := Method.Post, uri := u, contentTypeJson := true, body := b }

/-- The body-collection `fold` of `Api::send` (lines 111–117): accumulate
each successful chunk onto the buffer with `extend_from_slice`; a stream
error aborts the fold at that point. -/
def foldChunks (acc : List Nat) : List (Except Unit Chunk) → Except Unit (List Nat)
  | [] => Except.ok acc
  | Except.error e :: _ => Except.error e
  | Except.ok c :: rest => foldChunks (acc ++ c) rest

/-- The decode-and-split stage of `Api::send` (lines 119–131):
`serde_json::from_slice` on the collected bytes, then the exhaustive match
on the envelope — `Success {result}` yields the result, `Error
{description, parameters}` yields `ErrorKind::TelegramError` with those
fields, and a serde failure is converted by `From`, i.e. `DecodeError`. -/
def decodeAndSplit {P R : Type} (decode : List Nat → Except Unit (Response R P))
    (bytes : List Nat) : Except (ErrorKind P) R :=
  match decode bytes with
  | Except.error _ => Except.error ErrorKind.DecodeError
  | Except.ok (Response.Success r) => Except.ok r
  | Except.ok (Response.Error d p) => Except.error (ErrorKind.TelegramError d p)

/-- The network half of `Api::send`: issue the assembled request through the
connector (a hyper error converted by `From` is `NetworkError`), collect the
body chunks into one buffer (a mid-stream error likewise), then decode. -/
def handleResponse {P R : Type} (c : Connector P R) (hr : HttpRequest) :
    Except (ErrorKind P) R :=
  match c.request hr with
  | Except.error _ => Except.error ErrorKind.NetworkError
  | Except.ok chunks =>
      match foldChunks [] chunks with
      | Except.error _ => Except.error ErrorKind.NetworkError
      | Except.ok bytes => decodeAndSplit c.decode bytes

/-- `Api::send` (lines 91–136): assemble the request, then run the network
and decode pipeline.  The embedding is a total function: every byte
sequence, chunk list and connector outcome yields exactly one `Except`
value. -/
def Api.send {P R : Type} (a : Api P R) (req : Request) : Except (ErrorKind P) R :=
  match buildRequest a.connector.uriValid a.token req with
  | Except.error e => Except.error e
  | Except.ok hr => handleResponse a.connector hr

/-- A future, modelled by its completion time and resolved outcome.  This is
enough structure for the futures 0.1 combinators `Api` uses: `map`,
`map_err`, `flatten`, `then`, `select`. -/
structure Fut (ε α : Type) where
  time : Nat
  val : Except ε α

/-- `futures::future::result`: an immediately ready future. -/
def Fut.result {ε α : Type} (x : Except ε α) : Fut ε α := ⟨0, x⟩

/-- `Future::map`: apply `f` to a successful outcome. -/
def Fut.map {ε α β : Type} (f : α → β) : Fut ε α → Fut ε β
  | ⟨t, Except.ok a⟩ => ⟨t, Except.ok (f a)⟩
  | ⟨t, Except.error e⟩ => ⟨t, Except.error e⟩

/-- `Future::map_err`: apply `f` to a failed outcome. -/
def Fut.mapErr {ε ζ α : Type} (f : ε → ζ) : Fut ε α → Fut ζ α
  | ⟨t, Except.ok a⟩ => ⟨t, Except.ok a⟩
  | ⟨t, Except.error e⟩ => ⟨t, Except.error (f e)⟩

/-- `Future::flatten`: run the outer future, then the inner one it yields. -/
def Fut.flatten {ε α : Type} : Fut ε (Fut ε α) → Fut ε α
  | ⟨t, Except.error e⟩ => ⟨t, Except.error e⟩
  | ⟨t, Except.ok g⟩ => ⟨t + g.time, g.val⟩

/-- `Future::then`: run the future, hand its full outcome to `k`, run the
future `k` returns. -/
def Fut.andThen {ε ζ α β : Type} (f : Fut ε α) (k : Except ε α → Fut ζ β) : Fut ζ β :=
  ⟨f.time + (k f.val).time, (k f.val).val⟩

/-- `a.select(b)` followed by `.map(|(item, _next)| item)` and
`.map_err(|(item, _next)| item)`, as in `send_timeout`: the outcome of
whichever future resolves first.  `Select` polls its receiver first, so a
tie resolves to `a`. -/
def Fut.select {ε α : Type} (a b : Fut ε α) : Fut ε α :=
  if a.time ≤ b.time then a else b

/-- `tokio_core::reactor::Timeout::new(duration, handle)`: either fails to
start (an `io::Error`, here the `timerOk = false` case) or yields a timer
future that resolves to `Ok(())` once `duration` has elapsed. -/
def timeoutNew (timerOk : Bool) (duration : Nat) : Except Unit (Fut Unit Unit) :=
  if timerOk then Except.ok ⟨duration, Except.ok ()⟩ else Except.error ()

/-- The underlying send as a future: `Api::send`'s outcome, resolving after
the round-trip latency `t`. -/
def Api.sendFut {P R : Type} (a : Api P R) (req : Request) (t : Nat) :
    Fut (ErrorKind P) R :=
  ⟨t, a.send req⟩

/-- `Api::send_timeout` (lines 74–89): build
`result(Timeout::new(duration)).flatten().map_err(From::from).map(|()| None)`
and race it against `send(request).map(Some)` with `select`, keeping the
first outcome.  The `From<io::Error>` conversion is `IoError`.  The race is
stated over an arbitrary send future `sf` (instantiated with
`Api.sendFut`). -/
def send_timeout {P R : Type} (timerOk : Bool) (duration : Nat)
    (sf : Fut (ErrorKind P) R) : Fut (ErrorKind P) (Option R) :=
  let timeout_future :=
    Fut.map (fun _ => (none : Option R))
      (Fut.mapErr (fun _ => ErrorKind.IoError)
        (Fut.flatten (Fut.result (timeoutNew timerOk duration))))
  let send_future := Fut.map some sf
  timeout_future.select send_future

/-- `Api::send_timeout` on the handle itself. -/
def Api.send_timeout {P R : Type} (a : Api P R) (req : Request) (t : Nat)
    (timerOk : Bool) (duration : Nat) : Fut (ErrorKind P) (Option R) :=
  TelegramBot.send_timeout timerOk duration (a.sendFut req t)

/-- `Api::spawn` (lines 68–72): spawn `send(request).then(|_| Ok(()))`
onto the reactor — the same send, its outcome discarded. -/
def Api.spawn {P R : Type} (a : Api P R) (req : Request) (t : Nat) : Fut Unit Unit :=
  Fut.andThen (a.sendFut req t) (fun _ => Fut.result (Except.ok ()))

/-- `Api::from_token` (lines 51–62): build the connector-backed client from
the handle and wrap the token unconditionally in `Ok`. -/
def Api.from_token {P R : Type} (c : Connector P R) (token : String) :
    Except (ErrorKind P) (Api P R) :=
  Except.ok { token := token, connector := c }

/-- A concrete envelope decoder used to evaluate the pipeline on test
inputs: the body `[1, 2]` decodes to `Success 7`, the body `[3]` to a
remote-reported failure, and everything else is malformed. -/
def testDecode : List Nat → Except Unit (Response Nat Unit) := fun bytes =>
  if bytes = [1, 2] then Except.ok (Response.Success 7)
  else if bytes = [3] then Except.ok (Response.Error "FLOOD_WAIT" (some ()))
  else Except.error ()

/-- A connector test double that accepts every URI and delivers a fixed
chunk sequence for every request. -/
def chunkConnector (chunks : List (Except Unit Chunk)) : Connector Unit Nat :=
  { uriValid := fun _ => true
  , request := fun _ => Except.ok chunks
  , decode := testDecode }

/-- A client handle over the test double. -/
def testApi (chunks : List (Except Unit Chunk)) : Api Unit Nat :=
  { token := "TOKEN", connector := chunkConnector chunks }

/-- A typed test request. -/
def testReq : Request := { name := "getMe", encoded := Except.ok [10] }

/-- The HTTP request that `testApi`/`testReq` assemble. -/
def testHttpRequest : HttpRequest :=
  { method := Method.Post
  , uri := "https://api.telegram.org/botTOKEN/getMe"
  , contentTypeJson := true
  , body := [10] }

theorem foldChunks_map_ok (cs : List Chunk) (acc : List Nat) :
    foldChunks acc (cs.map Except.ok) = Except.ok (acc ++ cs.flatten) := by
  induction cs generalizing acc with
  | nil => simp [foldChunks]
  | cons c rest ih => simp [foldChunks, ih, List.append_assoc]

theorem foldChunks_first_error (pre : List Chunk) (rest : List (Except Unit Chunk))
    (acc : List Nat) :
    foldChunks acc (pre.map Except.ok ++ Except.error () :: rest) = Except.error () := by
  induction pre generalizing acc with
  | nil => simp [foldChunks]
  | cons c p ih => simp [foldChunks, ih]

/-- C1: for every request, if the connector delivers a response whose chunks
concatenate to a body that decodes to the envelope `{"ok":true,"result":R}`
(`Response.Success r`), then `send` resolves successfully to exactly that
typed value `r`, with no field lost or altered. -/
theorem send_success_exact {P R : Type} (a : Api P R) (req : Request)
    (hr : HttpRequest) (cs : List Chunk) (r : R)
    (hbuild : buildRequest (P := P) a.connector.uriValid a.token req = Except.ok hr)
    (hconn : a.connector.request hr = Except.ok (cs.map Except.ok))
    (hdec : a.connector.decode cs.flatten = Except.ok (Response.Success r)) :
    a.send req = Except.ok r := by
  simp [Api.send, hbuild, handleResponse, hconn, foldChunks_map_ok, decodeAndSplit, hdec]

/-- C1 witness: the test double delivers the body `[1], [2]`, which decodes
to `Success 7`, and `send` resolves to `7`. -/
theorem send_success_exact_witness :
    (testApi [Except.ok [1], Except.ok [2]]).send testReq = Except.ok 7 :=
  send_success_exact (testApi [Except.ok [1], Except.ok [2]]) testReq
    testHttpRequest [[1], [2]] 7 rfl rfl rfl

/-- C2: for every request, if the connector delivers a body that decodes to
the envelope `{"ok":false,"description":D,"parameters":P}`
(`Response.Error d p`), then `send` resolves to
`ErrorKind.TelegramError` with description exactly `d` and parameters
exactly `p`. -/
theorem send_telegram_error_exact {P R : Type} (a : Api P R) (req : Request)
    (hr : HttpRequest) (cs : List Chunk) (d : String) (p : Option P)
    (hbuild : buildRequest (P := P) a.connector.uriValid a.token req = Except.ok hr)
    (hconn : a.connector.request hr = Except.ok (cs.map Except.ok))
    (hdec : a.connector.decode cs.flatten = Except.ok (Response.Error d p)) :
    a.send req = Except.error (ErrorKind.TelegramError d p) := by
  simp [Api.send, hbuild, handleResponse, hconn, foldChunks_map_ok, decodeAndSplit, hdec]

/-- C2 witness: the test double delivers the body `[3]`, which decodes to a
remote failure, and `send` resolves to that `TelegramError` verbatim. -/
theorem send_telegram_error_exact_witness :
    (testApi [Except.ok [3]]).send testReq =
      Except.error (ErrorKind.TelegramError "FLOOD_WAIT" (some ())) :=
  send_telegram_error_exact (testApi [Except.ok [3]]) testReq
    testHttpRequest [[3]] "FLOOD_WAIT" (some ()) rfl rfl rfl

theorem Fut.map_eq {ε α β : Type} (f : α → β) (x : Fut ε α) :
    Fut.map f x = ⟨x.time, Except.map f x.val⟩ := by
  obtain ⟨t, v⟩ := x
  cases v <;> rfl

theorem send_timeout_true_eq {P R : Type} (d : Nat) (sf : Fut (ErrorKind P) R) :
    send_timeout true d sf =
      if d ≤ sf.time then ⟨d, Except.ok none⟩ else ⟨sf.time, Except.map some sf.val⟩ := by
  simp [send_timeout, timeoutNew, Fut.result, Fut.flatten, Fut.mapErr, Fut.map_eq,
    Fut.select, Except.map]

/-- C3: with the timer started, `send_timeout` resolves to the absent value
`none` — not an error — exactly when the underlying send has not completed
within the duration (`d ≤ sf.time`: the timer fires first; a tie goes to
the timer, which `select` polls first); otherwise (`sf.time < d`) it
resolves at send's time to the present value wrapping send's exact outcome,
the typed value under `some` on success and the error unchanged on failure.
The two cases are mutually exclusive and exhaustive. -/
theorem send_timeout_race {P R : Type} (d : Nat) (sf : Fut (ErrorKind P) R) :
    ((send_timeout true d sf).val = Except.ok none ↔ d ≤ sf.time) ∧
    (sf.time < d → send_timeout true d sf = ⟨sf.time, Except.map some sf.val⟩) := by
  rw [send_timeout_true_eq]
  by_cases h : d ≤ sf.time
  · rw [if_pos h]
    exact ⟨by simp [h], fun hlt => absurd hlt (by omega)⟩
  · rw [if_neg h]
    refine ⟨⟨fun hv => ?_, fun hd => absurd hd h⟩, fun _ => rfl⟩
    have hv2 : Except.map some sf.val = Except.ok none := hv
    cases hval : sf.val with
    | error e => rw [hval] at hv2; exact Except.noConfusion hv2
    | ok r => rw [hval] at hv2; simp [Except.map] at hv2

/-- C3 witness: a send resolving to `0` after `2` ticks, raced against a
`5`-tick timer, resolves to the present value `some 0` at time `2`. -/
theorem send_timeout_race_witness :
    send_timeout true 5 (⟨2, Except.ok (0 : Nat)⟩ : Fut (ErrorKind Unit) Nat) =
      ⟨2, Except.map some (Except.ok 0)⟩ :=
  (send_timeout_race 5 ⟨2, Except.ok 0⟩).2 (by decide)

/-- C4: if the timer fails to start, `send_timeout` resolves immediately to
that failure as an error (the `io::Error` carried through `From`), for
every underlying send future: it does not fall through to waiting on
send's outcome. -/
theorem send_timeout_timer_failure {P R : Type} (d : Nat) (sf : Fut (ErrorKind P) R) :
    send_timeout false d sf = ⟨0, Except.error ErrorKind.IoError⟩ := by
  simp [send_timeout, timeoutNew, Fut.result, Fut.flatten, Fut.mapErr, Fut.map, Fut.select]

/-- C5: for every request, if the collected body is not valid JSON or does
not match the envelope shape (the decoder fails), `send` resolves to
`DecodeError`; the embedding is a total function, so decoding yields an
outcome on every byte sequence. -/
theorem send_decode_error {P R : Type} (a : Api P R) (req : Request)
    (hr : HttpRequest) (cs : List Chunk)
    (hbuild : buildRequest (P := P) a.connector.uriValid a.token req = Except.ok hr)
    (hconn : a.connector.request hr = Except.ok (cs.map Except.ok))
    (hdec : a.connector.decode cs.flatten = Except.error ()) :
    a.send req = Except.error ErrorKind.DecodeError := by
  simp [Api.send, hbuild, handleResponse, hconn, foldChunks_map_ok, decodeAndSplit, hdec]

/-- C5 witness: the test double delivers the body `[9]`, which the decoder
rejects, and `send` resolves to `DecodeError`. -/
theorem send_decode_error_witness :
    (testApi [Except.ok [9]]).send testReq = Except.error ErrorKind.DecodeError :=
  send_decode_error (testApi [Except.ok [9]]) testReq testHttpRequest [[9]] rfl rfl rfl

/-- C6: for every token and request with method name `M`, when the body
encodes and the URI parses, the assembled request is an HTTP POST whose
target URL is exactly the base endpoint followed by `bot`, the token, `/`
and `M`, with the JSON content-type header set and the encoded fields as
body — and `send` proceeds by issuing exactly that request through the
connector. -/
theorem send_posts_exact_url {P R : Type} (a : Api P R) (req : Request) (b : List Nat)
    (henc : req.encoded = Except.ok b)
    (huri : a.connector.uriValid (TELEGRAM_URL ++ "bot" ++ a.token ++ "/" ++ req.name) = true) :
    buildRequest (P := P) a.connector.uriValid a.token req =
      Except.ok { method := Method.Post
                , uri := TELEGRAM_URL ++ "bot" ++ a.token ++ "/" ++ req.name
                , contentTypeJson := true
                , body := b } ∧
    a.send req =
      handleResponse a.connector
        { method := Method.Post
        , uri := TELEGRAM_URL ++ "bot" ++ a.token ++ "/" ++ req.name
        , contentTypeJson := true
        , body := b } := by
  have hb : buildRequest (P := P) a.connector.uriValid a.token req =
      Except.ok { method := Method.Post
                , uri := TELEGRAM_URL ++ "bot" ++ a.token ++ "/" ++ req.name
                , contentTypeJson := true
                , body := b } := by
    simp [buildRequest, url, huri, henc]
  exact ⟨hb, by simp [Api.send, hb]⟩

/-- C6 witness: with token `TOKEN` and method name `getMe`, the assembled
request targets `https://api.telegram.org/botTOKEN/getMe`. -/
theorem send_posts_exact_url_witness :
    buildRequest (P := Unit) (testApi []).connector.uriValid (testApi []).token testReq =
      Except.ok { method := Method.Post
                , uri := TELEGRAM_URL ++ "bot" ++ (testApi []).token ++ "/" ++ testReq.name
                , contentTypeJson := true
                , body := [10] } ∧
    (testApi []).send testReq =
      handleResponse (testApi []).connector
        { method := Method.Post
        , uri := TELEGRAM_URL ++ "bot" ++ (testApi []).token ++ "/" ++ testReq.name
        , contentTypeJson := true
        , body := [10] } :=
  send_posts_exact_url (testApi []) testReq [10] rfl rfl

/-- C7: for every response delivered as a sequence of successful byte
chunks, the body-collection fold accumulates them, in order, into the one
buffer equal to their concatenation, and the response pipeline hands the
decoder exactly that complete buffer — no decode happens on a partial
body. -/
theorem send_collects_chunks_in_order {P R : Type} (c : Connector P R)
    (hr : HttpRequest) (cs : List Chunk)
    (hconn : c.request hr = Except.ok (cs.map Except.ok)) :
    foldChunks [] (cs.map Except.ok) = Except.ok cs.flatten ∧
    handleResponse c hr = decodeAndSplit c.decode cs.flatten := by
  have hf := foldChunks_map_ok cs []
  simp only [List.nil_append] at hf
  exact ⟨hf, by simp [handleResponse, hconn, hf]⟩

/-- C7 witness: the chunks `[1]` then `[2]` are accumulated into `[1, 2]`
before decoding. -/
theorem send_collects_chunks_in_order_witness :
    foldChunks [] ([[1], [2]].map Except.ok) = Except.ok [1, 2] ∧
    handleResponse (chunkConnector [Except.ok [1], Except.ok [2]]) testHttpRequest =
      decodeAndSplit (chunkConnector [Except.ok [1], Except.ok [2]]).decode [1, 2] :=
  send_collects_chunks_in_order (chunkConnector [Except.ok [1], Except.ok [2]])
    testHttpRequest [[1], [2]] rfl

/-- C8: for every request, if the connector fails mid-stream while the
response bytes are being collected (some chunk read errors after a prefix
of successful chunks), `send` resolves to `NetworkError` — never to a
success decoded from a partial or garbled body. -/
theorem send_midstream_failure {P R : Type} (a : Api P R) (req : Request)
    (hr : HttpRequest) (pre : List Chunk) (rest : List (Except Unit Chunk))
    (hbuild : buildRequest (P := P) a.connector.uriValid a.token req = Except.ok hr)
    (hconn : a.connector.request hr =
      Except.ok (pre.map Except.ok ++ Except.error () :: rest)) :
    a.send req = Except.error ErrorKind.NetworkError := by
  simp [Api.send, hbuild, handleResponse, hconn, foldChunks_first_error]

/-- C8 witness: the stream delivers `[1]`, then fails mid-stream, and `send`
resolves to `NetworkError`. -/
theorem send_midstream_failure_witness :
    (testApi [Except.ok [1], Except.error (), Except.ok [2]]).send testReq =
      Except.error ErrorKind.NetworkError :=
  send_midstream_failure (testApi [Except.ok [1], Except.error (), Except.ok [2]]) testReq
    testHttpRequest [[1]] [Except.ok [2]] rfl rfl

/-- C9: `spawn` runs the same underlying send (the spawned future resolves
at the send future's time) and discards its outcome: whatever `send`
resolves to — a value or an error of any kind — the spawned future resolves
to `Ok(())`, surfacing nothing and never propagating the error. -/
theorem spawn_discards_outcome {P R : Type} (a : Api P R) (req : Request) (t : Nat) :
    (a.spawn req t).val = Except.ok () ∧ (a.spawn req t).time = (a.sendFut req t).time := by
  constructor <;> simp [Api.spawn, Fut.andThen, Fut.result, Api.sendFut]

/-- C10: for every connector capability and every token string — empty or
with arbitrary characters — `Api::from_token` returns `Ok` with that token
and connector: construction of the client handle never fails even though
its return type admits an error. -/
theorem from_token_never_fails {P R : Type} (c : Connector P R) (token : String) :
    Api.from_token c token = Except.ok { token := token, connector := c } := rfl

end TelegramBot
